import Mathlib

/-!
# Verification of the multi-site web scraper core

A shallow embedding of `src/web_scraper.py` (class `WebScraper`): the
per-site extractors (`scrape_quotes_site`, `scrape_books_site`,
`scrape_json_api`), the batch orchestrator (`run_all_scrapers`) and the
export operations (`save_to_json`, `save_to_csv`).

External collaborators are modelled at their interface, exactly as the
code consumes them:
* BeautifulSoup documents are modelled by structures holding precisely the
  query results the extractors read (`find`/`find_all` results become
  `Option`/`List` fields); a failed fetch (`_get_page` returning `None`)
  is the `none` case of an `Option` document.
* `get_text().strip()` and `.strip()` are modelled with `String.trim`.
* Python's `json` module value space is the inductive `Json`; file writing
  is modelled by returning the structured value that would be encoded.
* An exception raised inside a scraper (caught by `run_all_scrapers`) is a
  constructor of `ScraperExec`; log output is modelled as an emitted list
  of `LogMsg`.
-/

namespace WebScraperCore

/-- One element of Python's JSON value space (`response.json()` result). -/
inductive Json where
  | null : Json
  | bool (b : Bool) : Json
  | num (n : Int) : Json
  | str (s : String) : Json
  | arr (xs : List Json) : Json
  | obj (fields : List (String × Json)) : Json

/-! ## Quotes extractor (`scrape_quotes_site`, web_scraper.py lines 115–153) -/

/-- One emitted quote dict `{'text': ..., 'author': ..., 'tags': [...]}`. -/
structure Quote where
  text : String
  author : String
  tags : List String
deriving DecidableEq

/-- One `div.quote` container as the extractor queries it:
`find('span', class_='text')`, `find('small', class_='author')` give
`Option String` (the element's stripped-to-be text, `none` when absent),
`find_all('a', class_='tag')` gives the list of tag texts. -/
structure QuoteDiv where
  text : Option String
  author : Option String
  tags : List String
deriving DecidableEq

/-- The parsed quotes page: the `<title>` element (if any) and the
`find_all('div', class_='quote')` result in document order. -/
structure QuotesSoup where
  title : Option String
  quote_divs : List QuoteDiv
deriving DecidableEq

/-- The dict returned by a successful `scrape_quotes_site` call. -/
structure QuotesData where
  url : String
  title : String
  quotes : List Quote
  total_quotes : Nat
deriving DecidableEq

/-- The loop body at lines 132–142: a container is emitted exactly when
both `quote_text` and `author` are non-`None`. -/
def extractQuote (d : QuoteDiv) : Option Quote :=
  match d.text, d.author with
  | some t, some a =>
      some { text := t.trim, author := a.trim, tags := d.tags.map (fun s => s.trim) }
  | _, _ => none

/-- Lines 115–153. A `none` soup models `_get_page` returning `None` after a
`requests.RequestException` (the method then returns the empty dict `{}`,
modelled `none`). -/
def scrape_quotes_site (url : String) (soup : Option QuotesSoup) : Option QuotesData :=
  match soup with
  | none => none
  | some s =>
      let quotes := s.quote_divs.filterMap extractQuote
      some { url := url
             title := (s.title.map (fun t => t.trim)).getD "Quotes to Scrape"
             quotes := quotes
             total_quotes := quotes.length }

/-- `d.text.isSome && d.author.isSome`: the emission condition of the loop. -/
def quoteOk (d : QuoteDiv) : Bool :=
  d.text.isSome && d.author.isSome

/-- The quote built from a container that passes `quoteOk`. -/
def mkQuote (d : QuoteDiv) : Quote :=
  { text := (d.text.getD "").trim
    author := (d.author.getD "").trim
    tags := d.tags.map (fun s => s.trim) }

/-! ## Books extractor (`scrape_books_site`, web_scraper.py lines 155–204) -/

/-- The `<h3><a ...>` element: its `title` attribute may be absent
(`get('title', '')` then defaults to the empty string). -/
structure TitleElem where
  titleAttr : Option String
deriving DecidableEq

/-- The `p.star-rating` element: its class-attribute token list
(`get('class', [])`). -/
structure RatingElem where
  classes : List String
deriving DecidableEq

/-- One `article.product_pod` container as queried at lines 173–176. -/
structure BookArticle where
  title_elem : Option TitleElem
  price_elem : Option String
  rating_elem : Option RatingElem
  availability_elem : Option String
deriving DecidableEq

/-- One emitted book dict (lines 188–193). -/
structure Book where
  title : String
  price : String
  rating : String
  availability : String
deriving DecidableEq

/-- The parsed books page. -/
structure BooksSoup where
  title : Option String
  book_articles : List BookArticle
deriving DecidableEq

/-- The dict returned by a successful `scrape_books_site` call. -/
structure BooksData where
  url : String
  title : String
  books : List Book
  total_books : Nat
deriving DecidableEq

/-- The rating vocabulary of line 184: `['One', 'Two', 'Three', 'Four', 'Five']`. -/
def ratingVocab : List String := ["One", "Two", "Three", "Four", "Five"]

/-- The loop at lines 183–186: scan the class tokens in order, the first one
in `ratingVocab` wins (`break`). -/
def firstRating : List String → Option String
  | [] => none
  | c :: rest => if c ∈ ratingVocab then some c else firstRating rest

/-- Lines 180–186: `rating = 'Unknown'` unless the rating element exists and
one of its class tokens is in the vocabulary. -/
def bookRating (re : Option RatingElem) : String :=
  match re with
  | none => "Unknown"
  | some r => (firstRating r.classes).getD "Unknown"

/-- The loop body at lines 172–193: emitted exactly when `title_elem` and
`price_elem` are both non-`None`. -/
def extractBook (a : BookArticle) : Option Book :=
  match a.title_elem, a.price_elem with
  | some te, some pe =>
      some { title := (te.titleAttr.getD "").trim
             price := pe.trim
             rating := bookRating a.rating_elem
             availability :=
               match a.availability_elem with
               | some av => av.trim
               | none => "Unknown" }
  | _, _ => none

/-- Lines 155–204, with `none` soup for a failed `_get_page`. -/
def scrape_books_site (url : String) (soup : Option BooksSoup) : Option BooksData :=
  match soup with
  | none => none
  | some s =>
      let books := s.book_articles.filterMap extractBook
      some { url := url
             title := (s.title.map (fun t => t.trim)).getD "Books to Scrape"
             books := books
             total_books := books.length }

/-- `a.title_elem.isSome && a.price_elem.isSome`: the emission condition. -/
def bookOk (a : BookArticle) : Bool :=
  a.title_elem.isSome && a.price_elem.isSome

/-- The book built from a container that passes `bookOk`. -/
def mkBook (a : BookArticle) : Book :=
  { title := ((a.title_elem.getD ⟨none⟩).titleAttr.getD "").trim
    price := (a.price_elem.getD "").trim
    rating := bookRating a.rating_elem
    availability :=
      match a.availability_elem with
      | some av => av.trim
      | none => "Unknown" }

/-! ## JSON-API extractor (`scrape_json_api`, web_scraper.py lines 206–237) -/

/-- The error kinds of the `except (requests.RequestException,
json.JSONDecodeError)` clause at line 235: the three `RequestException`
shapes the fetch can raise, and a JSON decode failure of `response.json()`. -/
inductive FetchErr where
  | connection : FetchErr
  | timeout : FetchErr
  | httpStatus : FetchErr
  | jsonDecode : FetchErr
deriving DecidableEq

/-- Outcome of `self.session.get(url).json()` inside the `try` block. -/
inductive ApiFetch where
  | err (e : FetchErr) : ApiFetch
  | ok (j : Json) : ApiFetch

/-- The dict returned by a successful `scrape_json_api` call. -/
structure ApiData where
  url : String
  title : String
  api_data : Json
  total_items : Nat

/-- Lines 206–237: on any caught error, log and return `{}` (modelled
`none`); otherwise truncate a top-level list to its first 10 elements
(line 226) and set `total_items = len(data) if isinstance(data, list)
else 1` (line 232). -/
def scrape_json_api (url : String) (fetch : ApiFetch) : Option ApiData :=
  match fetch with
  | .err _ => none
  | .ok j =>
      let data := match j with
        | Json.arr xs => Json.arr (xs.take 10)
        | d => d
      some { url := url
             title := "JSON API Data"
             api_data := data
             total_items :=
               match data with
               | Json.arr xs => xs.length
               | _ => 1 }

/-! ## Records, store, orchestrator (`run_all_scrapers`, lines 239–264) -/

/-- A link dict of the news extractor (`{'text': ..., 'url': ...}`). -/
structure Link where
  text : String
  url : String
deriving DecidableEq

/-- The dict returned by a successful `scrape_news_site` call. -/
structure NewsData where
  url : String
  title : String
  headings : List String
  paragraphs : List String
  links : List Link
deriving DecidableEq

/-- One element of `self.scraped_data`: the four per-site result dict
shapes, tagged by which scraper produced them (the `'type'` field). -/
inductive SiteData where
  | quotesD (q : QuotesData) : SiteData
  | booksD (b : BooksData) : SiteData
  | apiD (a : ApiData) : SiteData
  | newsD (n : NewsData) : SiteData

/-- A log line, reduced to its level: `logger.info` versus `logger.error`. -/
inductive LogMsg where
  | info : LogMsg
  | error : LogMsg
deriving DecidableEq

/-- How one scraper call inside the `run_all_scrapers` loop behaves:
it returns a dict (`some` a result, or `none` for the empty dict `{}`
produced after a caught fetch/extract error), or it raises an exception
that escapes the scraper (caught by the loop's `except` at line 260). -/
inductive ScraperExec where
  | returns (data : Option SiteData) : ScraperExec
  | raises : ScraperExec

/-- A source counted as failed: it produced no record (returned the falsy
`{}` after an internally logged error, or raised). -/
def scraperFailed : ScraperExec → Bool
  | .returns (some _) => false
  | .returns none => true
  | .raises => true

/-- Lines 246–264, one loop iteration per configured scraper. A scraper
that returns `{}` has already logged its own error exactly once (in
`_get_page` line 68 or the `except` clause line 236); a truthy dict is
appended and logged as a success (line 259); a raised exception is caught
and logged once by line 261 and nothing is appended. The function is total:
no fetch or extraction error escapes to the caller. -/
def run_all_scrapers : List ScraperExec → List SiteData × List LogMsg
  | [] => ([], [])
  | e :: rest =>
      let r := run_all_scrapers rest
      match e with
      | .returns (some d) => (d :: r.1, LogMsg.info :: r.2)
      | .returns none => (r.1, LogMsg.error :: r.2)
      | .raises => (r.1, LogMsg.error :: r.2)

/-- Number of error-level log lines in an emitted log. -/
def errorLogCount (logs : List LogMsg) : Nat :=
  (logs.filter (fun m => m == LogMsg.error)).length

/-! ## Export (`save_to_json` lines 266–270, `save_to_csv` lines 272–300) -/

/-- The JSON object serialized for one quote. -/
def quoteJson (q : Quote) : Json :=
  Json.obj [("text", Json.str q.text), ("author", Json.str q.author),
            ("tags", Json.arr (q.tags.map Json.str))]

/-- The JSON object serialized for one book. -/
def bookJson (b : Book) : Json :=
  Json.obj [("title", Json.str b.title), ("price", Json.str b.price),
            ("rating", Json.str b.rating), ("availability", Json.str b.availability)]

/-- The JSON object serialized for one link. -/
def linkJson (l : Link) : Json :=
  Json.obj [("text", Json.str l.text), ("url", Json.str l.url)]

/-- The JSON object `json.dump` writes for one stored result dict, fields in
the dict's insertion order (lines 147–152, 198–203, 228–233, 106–113). -/
def recordJson : SiteData → Json
  | .quotesD q =>
      Json.obj [("url", Json.str q.url), ("title", Json.str q.title),
                ("quotes", Json.arr (q.quotes.map quoteJson)),
                ("total_quotes", Json.num q.total_quotes),
                ("type", Json.str "quotes_site")]
  | .booksD b =>
      Json.obj [("url", Json.str b.url), ("title", Json.str b.title),
                ("books", Json.arr (b.books.map bookJson)),
                ("total_books", Json.num b.total_books),
                ("type", Json.str "books_site")]
  | .apiD a =>
      Json.obj [("url", Json.str a.url), ("title", Json.str a.title),
                ("api_data", a.api_data),
                ("total_items", Json.num a.total_items),
                ("type", Json.str "json_api")]
  | .newsD n =>
      Json.obj [("url", Json.str n.url), ("title", Json.str n.title),
                ("headings", Json.arr (n.headings.map Json.str)),
                ("paragraphs", Json.arr (n.paragraphs.map Json.str)),
                ("links", Json.arr (n.links.map linkJson)),
                ("type", Json.str "news_site")]

/-- Lines 266–270: `json.dump(self.scraped_data, ...)` — the document is the
JSON array of the stored records, in store order. -/
def save_to_json (store : List SiteData) : Json :=
  Json.arr (store.map recordJson)

/-- The per-record count written to the CSV (lines 283–291): the stored
`total_quotes` / `total_books` / `total_items` field, keyed by which
collection key is present; for a news dict, `len(paragraphs)`. -/
def csvItemsCount : SiteData → Nat
  | .quotesD q => q.total_quotes
  | .booksD b => b.total_books
  | .apiD a => a.total_items
  | .newsD n => n.paragraphs.length

/-- `data.get('url', '')`. -/
def urlOf : SiteData → String
  | .quotesD q => q.url
  | .booksD b => b.url
  | .apiD a => a.url
  | .newsD n => n.url

/-- `data.get('title', '')`. -/
def titleOf : SiteData → String
  | .quotesD q => q.title
  | .booksD b => b.title
  | .apiD a => a.title
  | .newsD n => n.title

/-- `data.get('type', '')` — the `'type'` field each scraper stores. -/
def typeOf : SiteData → String
  | .quotesD _ => "quotes_site"
  | .booksD _ => "books_site"
  | .apiD _ => "json_api"
  | .newsD _ => "news_site"

/-- The data row written for one record (lines 293–298). -/
def csvRow (d : SiteData) : List String :=
  [urlOf d, titleOf d, typeOf d, toString (csvItemsCount d)]

/-- The header row of line 280: `['URL', 'Title', 'Type', 'Items Count']`. -/
def csvHeader : List String := ["URL", "Title", "Type", "Items Count"]

/-- Lines 272–300. When the store is empty the method logs a warning and
returns without writing anything (lines 274–276): modelled as `none`.
Otherwise the written document is the header row followed by one data row
per record in store order. -/
def save_to_csv (store : List SiteData) : Option (List (List String)) :=
  if store.isEmpty then none
  else some (csvHeader :: store.map csvRow)

/-! ## Constructor (`__init__`, lines 33–45) -/

/-- The scraper's state after construction: the stored delay range and the
(empty) `scraped_data` list. The HTTP session and headers are external. -/
structure WebScraperState where
  delay_range : Int × Int
  scraped_data : List SiteData

/-- Lines 33–45, embedded in `Except` so that a raised configuration error
would be representable: the body only assigns attributes, performs no
validation of `delay_range`, and therefore always succeeds. -/
def WebScraper.init (delay_range : Int × Int) : Except String WebScraperState :=
  Except.ok { delay_range := delay_range, scraped_data := [] }

/-- The itemCount field of a serialized record: the value of its
`total_quotes`, `total_books` or `total_items` key, when one is present. -/
def totalField (j : Json) : Option Json :=
  match j with
  | .obj fields =>
      (fields.find? (fun kv =>
        kv.1 == "total_quotes" || kv.1 == "total_books" || kv.1 == "total_items")).map
        (fun kv => kv.2)
  | _ => none

/-! ## Concrete example inputs (used by witnesses and counterexamples) -/

/-- The spec's example document: 3 well-formed quote containers and one
container missing its author. -/
def c5soup : QuotesSoup :=
  { title := some "Quotes to Scrape"
    quote_divs :=
      [ { text := some "q1", author := some "a1", tags := ["love"] },
        { text := some "q2", author := some "a2", tags := [] },
        { text := some "q3", author := some "a3", tags := [] },
        { text := some "q4", author := none, tags := [] } ] }

/-- The record extracted from `c5soup` (extracted texts are stripped). -/
def c5res : QuotesData :=
  { url := "http://quotes.toscrape.com/"
    title := "Quotes to Scrape".trim
    quotes := [⟨"q1".trim, "a1".trim, ["love".trim]⟩,
               ⟨"q2".trim, "a2".trim, []⟩, ⟨"q3".trim, "a3".trim, []⟩]
    total_quotes := 3 }

/-- A single quote container with text and author but zero tags. -/
def c10soup : QuotesSoup :=
  { title := none
    quote_divs := [{ text := some "qq", author := some "aa", tags := [] }] }

/-- The record extracted from `c10soup`. -/
def c10res : QuotesData :=
  { url := "u", title := "Quotes to Scrape"
    quotes := [⟨"qq".trim, "aa".trim, []⟩], total_quotes := 1 }

/-- A product container whose rating class list is
`["star-rating", "Three"]`. -/
def c6art1 : BookArticle :=
  { title_elem := some ⟨some "B1"⟩, price_elem := some "£10.00"
    rating_elem := some ⟨["star-rating", "Three"]⟩
    availability_elem := some "In stock" }

/-- A product container with no recognized rating class and no
availability element. -/
def c6art2 : BookArticle :=
  { title_elem := some ⟨some "B2"⟩, price_elem := some "£12.00"
    rating_elem := some ⟨["star-rating", "Odd"]⟩
    availability_elem := none }

/-- A books page holding the two example containers. -/
def c6soup : BooksSoup :=
  { title := some "Books to Scrape", book_articles := [c6art1, c6art2] }

/-- The record extracted from `c6soup`. -/
def c6res : BooksData :=
  { url := "http://books.toscrape.com/"
    title := "Books to Scrape".trim
    books := [⟨"B1".trim, "£10.00".trim, "Three", "In stock".trim⟩,
              ⟨"B2".trim, "£12.00".trim, "Unknown", "Unknown"⟩]
    total_books := 2 }

/-- A stored quotes record used to exercise the CSV export. -/
def c3q : QuotesData := { url := "u", title := "T", quotes := [], total_quotes := 0 }

/-- A one-record store. -/
def c3store : List SiteData := [SiteData.quotesD c3q]

/-! ## Helper lemmas -/

/-- A `filterMap` whose function emits `g x` exactly when `p x` holds is the
`map` of `g` over the `filter` of `p`. -/
theorem filterMap_eq_map_filter {α β : Type} (f : α → Option β) (p : α → Bool)
    (g : α → β) (hf : ∀ x, f x = if p x then some (g x) else none)
    (l : List α) : l.filterMap f = (l.filter p).map g := by
  induction l with
  | nil => simp
  | cons x xs ih =>
      cases hpx : p x <;>
        simp [List.filterMap_cons, List.filter_cons, hf x, hpx, ih]

/-- `extractQuote` emits `mkQuote` exactly on containers passing `quoteOk`. -/
theorem extractQuote_eq (d : QuoteDiv) :
    extractQuote d = if quoteOk d then some (mkQuote d) else none := by
  cases ht : d.text <;> cases ha : d.author <;>
    simp [extractQuote, quoteOk, mkQuote, ht, ha]

/-- `extractBook` emits `mkBook` exactly on containers passing `bookOk`. -/
theorem extractBook_eq (a : BookArticle) :
    extractBook a = if bookOk a then some (mkBook a) else none := by
  cases ht : a.title_elem <;> cases hp : a.price_elem <;>
    simp [extractBook, bookOk, mkBook, ht, hp]

/-- Store length plus failure count is the number of configured scrapers. -/
theorem run_all_length (execs : List ScraperExec) :
    (run_all_scrapers execs).1.length + (execs.filter scraperFailed).length
      = execs.length := by
  induction execs with
  | nil => rfl
  | cons e rest ih =>
      cases e with
      | returns d =>
          cases d <;>
            simp only [run_all_scrapers, scraperFailed, List.filter_cons,
              List.length_cons] <;> simp <;> omega
      | raises =>
          simp only [run_all_scrapers, scraperFailed, List.filter_cons,
            List.length_cons]
          simp
          omega

/-- Each failed source contributes exactly one error-level log line. -/
theorem run_all_errors (execs : List ScraperExec) :
    errorLogCount (run_all_scrapers execs).2
      = (execs.filter scraperFailed).length := by
  induction execs with
  | nil => rfl
  | cons e rest ih =>
      cases e with
      | returns d =>
          cases d <;>
            simp [run_all_scrapers, scraperFailed, errorLogCount,
              List.filter_cons, ih, errorLogCount] <;>
            simp [errorLogCount] at ih <;> omega
      | raises =>
          simp [run_all_scrapers, scraperFailed, errorLogCount, List.filter_cons]
          simp [errorLogCount] at ih
          omega

/-! ## Claims -/

/-- C1: over any batch of `n` configured sources of which exactly `k` fail
(in fetch or in extraction, whether by returning the empty dict after an
internally logged error or by raising an exception that the loop catches),
`run_all_scrapers` returns a store with exactly `n − k` records and emits
exactly `k` error log lines — one per failure; the orchestrator is a total
function, so no fetch or extraction error propagates to its caller. -/
theorem c1_run_all_partial_failure (execs : List ScraperExec) :
    (run_all_scrapers execs).1.length
        = execs.length - (execs.filter scraperFailed).length ∧
    (execs.filter scraperFailed).length ≤ execs.length ∧
    errorLogCount (run_all_scrapers execs).2
        = (execs.filter scraperFailed).length := by
  have h := run_all_length execs
  exact ⟨by omega, by omega, run_all_errors execs⟩

/-- C2: for every record any extractor variant produces, the stored count
field equals the cardinality of the kind-specific collection in the payload:
`total_quotes` is the length of `quotes`, `total_books` the length of
`books`, and `total_items` the length of the (truncated) `api_data` list
when it is a list and `1` otherwise. -/
theorem c2_itemCount_invariant :
    (∀ url soup r, scrape_quotes_site url soup = some r →
        r.total_quotes = r.quotes.length) ∧
    (∀ url soup r, scrape_books_site url soup = some r →
        r.total_books = r.books.length) ∧
    (∀ url fetch r, scrape_json_api url fetch = some r →
        r.total_items = match r.api_data with
          | Json.arr xs => xs.length
          | _ => 1) := by
  refine ⟨?_, ?_, ?_⟩
  · intro url soup r h
    cases soup with
    | none => simp [scrape_quotes_site] at h
    | some s =>
        simp only [scrape_quotes_site, Option.some.injEq] at h
        subst h
        rfl
  · intro url soup r h
    cases soup with
    | none => simp [scrape_books_site] at h
    | some s =>
        simp only [scrape_books_site, Option.some.injEq] at h
        subst h
        rfl
  · intro url fetch r h
    cases fetch with
    | err e => simp [scrape_json_api] at h
    | ok j =>
        simp only [scrape_json_api, Option.some.injEq] at h
        subst h
        cases j <;> rfl

/-- C4: the JSON-API extractor truncates a top-level list to its first 10
elements and stores the truncated length as `total_items` (a 15-element
input therefore yields a 10-element payload with count `min 10 15 = 10`);
a top-level object is stored as-is with `total_items = 1`. -/
theorem c4_json_api_truncation :
    (∀ url (xs : List Json),
        scrape_json_api url (ApiFetch.ok (Json.arr xs))
          = some { url := url, title := "JSON API Data",
                   api_data := Json.arr (xs.take 10),
                   total_items := min 10 xs.length }) ∧
    (∀ url (fields : List (String × Json)),
        scrape_json_api url (ApiFetch.ok (Json.obj fields))
          = some { url := url, title := "JSON API Data",
                   api_data := Json.obj fields, total_items := 1 }) := by
  constructor
  · intro url xs
    simp [scrape_json_api, List.length_take]
  · intro url fields
    rfl

/-- C5: the quote extractor emits, in document order, exactly the
containers having both a text node and an author node (`mkQuote` of the
`quoteOk` filter); containers missing either are silently skipped, and
`total_quotes` equals the number of emitted quotes. -/
theorem c5_quote_extraction (url : String) (soup : QuotesSoup) (r : QuotesData)
    (h : scrape_quotes_site url (some soup) = some r) :
    r.quotes = (soup.quote_divs.filter quoteOk).map mkQuote ∧
    r.total_quotes = (soup.quote_divs.filter quoteOk).length ∧
    r.total_quotes = r.quotes.length := by
  simp only [scrape_quotes_site, Option.some.injEq] at h
  subst h
  have hq := filterMap_eq_map_filter extractQuote quoteOk mkQuote
    extractQuote_eq soup.quote_divs
  refine ⟨hq, ?_, rfl⟩
  simp [hq]

/-- C5 witness: on the 3-good-plus-1-authorless document the extractor
yields exactly 3 entries with `total_quotes = 3`. -/
theorem c5_witness :
    scrape_quotes_site "http://quotes.toscrape.com/" (some c5soup) = some c5res ∧
    c5res.quotes = (c5soup.quote_divs.filter quoteOk).map mkQuote ∧
    c5res.total_quotes = 3 ∧ c5res.quotes.length = 3 := by
  have h : scrape_quotes_site "http://quotes.toscrape.com/" (some c5soup)
      = some c5res := rfl
  exact ⟨h, (c5_quote_extraction "http://quotes.toscrape.com/" c5soup c5res h).1,
    rfl, rfl⟩

/-- C10: a quote container with both a text node and an author node but no
tag elements is still emitted, with an empty `tags` list; absent tags are
never a skip condition. -/
theorem c10_empty_tags (url : String) (soup : QuotesSoup) (r : QuotesData)
    (d : QuoteDiv) (t a : String)
    (h : scrape_quotes_site url (some soup) = some r)
    (hd : d ∈ soup.quote_divs) (ht : d.text = some t) (ha : d.author = some a)
    (htags : d.tags = []) :
    Quote.mk t.trim a.trim [] ∈ r.quotes := by
  simp only [scrape_quotes_site, Option.some.injEq] at h
  subst h
  exact List.mem_filterMap.mpr ⟨d, hd, by simp [extractQuote, ht, ha, htags]⟩

/-- C10 witness: the tagless container is emitted with `tags = []`. -/
theorem c10_witness : Quote.mk "qq".trim "aa".trim [] ∈ c10res.quotes := by
  have h := c10_empty_tags "u" c10soup c10res
    ⟨some "qq", some "aa", []⟩ "qq" "aa" rfl (by decide) rfl rfl rfl
  exact h

/-- If position `i` holds a vocabulary token and no earlier position does,
the class-scan loop stops exactly there. -/
theorem firstRating_of_first (l : List String) (i : Nat) (h : i < l.length)
    (hmem : l.get ⟨i, h⟩ ∈ ratingVocab)
    (hfirst : ∀ j (hj : j < i), l.get ⟨j, Nat.lt_trans hj h⟩ ∉ ratingVocab) :
    firstRating l = some (l.get ⟨i, h⟩) := by
  induction l generalizing i with
  | nil => exact absurd h (Nat.not_lt_zero i)
  | cons c rest ih =>
      cases i with
      | zero =>
          simp only [List.get] at hmem ⊢
          simp [firstRating, hmem]
      | succ i' =>
          have hc : c ∉ ratingVocab := hfirst 0 (Nat.succ_pos i')
          rw [firstRating, if_neg hc]
          exact ih i' (Nat.lt_of_succ_lt_succ h) hmem
            (fun j hj => hfirst (j + 1) (Nat.succ_lt_succ hj))

/-- If no class token is in the vocabulary, the scan finds nothing. -/
theorem firstRating_of_none (l : List String)
    (h : ∀ c ∈ l, c ∉ ratingVocab) : firstRating l = none := by
  induction l with
  | nil => rfl
  | cons c rest ih =>
      rw [firstRating, if_neg (h c (by simp))]
      exact ih (fun c' hc' => h c' (by simp [hc']))

/-- C6: an emitted catalog entry's `rating` is the first class token of the
rating element that lies in the vocabulary `{One,Two,Three,Four,Five}`
(first match wins), and is `"Unknown"` when the rating element is absent or
no token matches; `availability` is `"Unknown"` when the availability
element is absent. The emitted entries are exactly `mkBook` of the
containers passing `bookOk`. -/
theorem c6_book_rating (url : String) (soup : BooksSoup) (r : BooksData)
    (h : scrape_books_site url (some soup) = some r) :
    r.books = (soup.book_articles.filter bookOk).map mkBook ∧
    ∀ a ∈ soup.book_articles,
      (a.rating_elem = none → (mkBook a).rating = "Unknown") ∧
      (∀ re, a.rating_elem = some re →
        ((∀ c ∈ re.classes, c ∉ ratingVocab) → (mkBook a).rating = "Unknown") ∧
        (∀ i (hi : i < re.classes.length),
          re.classes.get ⟨i, hi⟩ ∈ ratingVocab →
          (∀ j (hj : j < i), re.classes.get ⟨j, Nat.lt_trans hj hi⟩ ∉ ratingVocab) →
          (mkBook a).rating = re.classes.get ⟨i, hi⟩)) ∧
      (a.availability_elem = none → (mkBook a).availability = "Unknown") := by
  simp only [scrape_books_site, Option.some.injEq] at h
  subst h
  refine ⟨filterMap_eq_map_filter extractBook bookOk mkBook extractBook_eq _, ?_⟩
  intro a _
  refine ⟨?_, ?_, ?_⟩
  · intro hre
    simp [mkBook, bookRating, hre]
  · intro re hre
    constructor
    · intro hall
      simp [mkBook, bookRating, hre, firstRating_of_none re.classes hall]
    · intro i hi hmem hfirst
      simp [mkBook, bookRating, hre,
        firstRating_of_first re.classes i hi hmem hfirst]
  · intro hav
    simp [mkBook, hav]

/-- C6 witness: the container whose rating class is `"Three"` yields
`rating = "Three"`; the container with no recognized rating class yields
`rating = "Unknown"`, and its absent availability yields `"Unknown"`. -/
theorem c6_witness :
    (mkBook c6art1).rating = "Three" ∧ (mkBook c6art2).rating = "Unknown" ∧
    (mkBook c6art2).availability = "Unknown" := by
  have h := c6_book_rating "http://books.toscrape.com/" c6soup c6res rfl
  have h1 := h.2 c6art1 (by decide)
  have h2 := h.2 c6art2 (by decide)
  refine ⟨?_, ?_, ?_⟩
  · exact (h1.2.1 ⟨["star-rating", "Three"]⟩ rfl).2 1 (by decide) (by decide)
      (by
        intro j hj
        have hj0 : j = 0 := by omega
        subst hj0
        show "star-rating" ∉ ratingVocab
        decide)
  · exact (h2.2.1 ⟨["star-rating", "Odd"]⟩ rfl).1 (by decide)
  · exact h2.2.2 rfl

/-- C3 counterexample: on a concrete one-record store the CSV header row is
`URL,Title,Type,Items Count` (line 280 of the source writes
`'Items Count'` with a space), not `URL,Title,Type,ItemsCount` as the
claim states. -/
theorem c3_counterexample :
    save_to_csv [SiteData.quotesD c3q]
        = some [["URL", "Title", "Type", "Items Count"],
                ["u", "T", "quotes_site", "0"]] ∧
    save_to_csv [SiteData.quotesD c3q]
        ≠ some [["URL", "Title", "Type", "ItemsCount"],
                ["u", "T", "quotes_site", "0"]] := by
  constructor
  · decide
  · decide

/-- C3 amended: for every non-empty store the CSV summary is one header row
`URL,Title,Type,Items Count` followed by exactly one row per record in
store order; each row's count cell is the stored record's count field — the
same `total_*` value the JSON export carries — read from the record, never
recomputed from the payload (the three count projections are field reads,
holding for every record whether or not its count matches its payload). -/
theorem c3_csv_summary (store : List SiteData) (hne : store ≠ []) :
    save_to_csv store = some (csvHeader :: store.map csvRow) ∧
    (∀ d ∈ store, (csvRow d).get? 3 = some (toString (csvItemsCount d))) ∧
    (∀ d ∈ store, ∀ n : Int,
      totalField (recordJson d) = some (Json.num n) →
      (csvItemsCount d : Int) = n) ∧
    (∀ q : QuotesData, csvItemsCount (SiteData.quotesD q) = q.total_quotes) ∧
    (∀ b : BooksData, csvItemsCount (SiteData.booksD b) = b.total_books) ∧
    (∀ a : ApiData, csvItemsCount (SiteData.apiD a) = a.total_items) := by
  have hemp : store.isEmpty = false := by
    cases store with
    | nil => exact absurd rfl hne
    | cons x xs => rfl
  refine ⟨by simp [save_to_csv, hemp], fun d _ => rfl, ?_,
    fun q => rfl, fun b => rfl, fun a => rfl⟩
  intro d _ n h
  cases d with
  | quotesD q =>
      have ht : totalField (recordJson (SiteData.quotesD q))
          = some (Json.num q.total_quotes) := rfl
      rw [ht] at h
      injection h with h1
      injection h1
  | booksD b =>
      have ht : totalField (recordJson (SiteData.booksD b))
          = some (Json.num b.total_books) := rfl
      rw [ht] at h
      injection h with h1
      injection h1
  | apiD a =>
      have ht : totalField (recordJson (SiteData.apiD a))
          = some (Json.num a.total_items) := rfl
      rw [ht] at h
      injection h with h1
      injection h1
  | newsD nn =>
      have ht : totalField (recordJson (SiteData.newsD nn)) = none := rfl
      rw [ht] at h
      exact Option.noConfusion h

/-- C3 witness: the amended claim at the concrete one-record store. -/
theorem c3_witness :
    save_to_csv c3store = some (csvHeader :: c3store.map csvRow) ∧
    csvItemsCount (SiteData.quotesD c3q) = c3q.total_quotes := by
  have h := c3_csv_summary c3store (List.cons_ne_nil _ _)
  exact ⟨h.1, h.2.2.2.1 c3q⟩

/-- C7 counterexample: on the empty store `save_to_csv` writes nothing at
all (the method returns before opening the file, lines 274–276) — in
particular it does not produce a header-only document, under either header
spelling. -/
theorem c7_counterexample :
    save_to_csv [] = none ∧
    save_to_csv [] ≠ some [["URL", "Title", "Type", "ItemsCount"]] ∧
    save_to_csv [] ≠ some [csvHeader] := by
  refine ⟨rfl, ?_, ?_⟩
  · decide
  · decide

/-- C7 amended: exporting an empty store is not an error — the JSON export
produces the empty-array document, but the CSV export produces no document
at all: the method logs a warning and returns early instead of writing a
header-only file. -/
theorem c7_empty_store_export :
    save_to_csv [] = none ∧ save_to_json [] = Json.arr [] :=
  ⟨rfl, rfl⟩

/-- C8 counterexample: two failures of different kinds (a connection error
and a JSON decode error) make `scrape_json_api` return the very same empty
dict, so the error kind is not recoverable from the returned value. -/
theorem c8_counterexample :
    scrape_json_api "https://jsonplaceholder.typicode.com/posts"
        (ApiFetch.err FetchErr.connection) = none ∧
    scrape_json_api "https://jsonplaceholder.typicode.com/posts"
        (ApiFetch.err FetchErr.jsonDecode) = none ∧
    FetchErr.connection ≠ FetchErr.jsonDecode := by
  refine ⟨rfl, rfl, ?_⟩
  decide

/-- C8 amended: when the fetch or extraction fails, each per-site scrape
method returns the empty dict (`none`) — an optional value distinguishable
from every successful result, so the failure is surfaced to the caller
rather than a record being produced silently — but the same empty value for
every error kind, so the kind itself is not surfaced. -/
theorem c8_failure_signalling :
    (∀ url e, scrape_json_api url (ApiFetch.err e) = none) ∧
    (∀ url j, (scrape_json_api url (ApiFetch.ok j)).isSome = true) ∧
    (∀ url, scrape_quotes_site url none = none) ∧
    (∀ url soup, (scrape_quotes_site url (some soup)).isSome = true) ∧
    (∀ url, scrape_books_site url none = none) ∧
    (∀ url soup, (scrape_books_site url (some soup)).isSome = true) :=
  ⟨fun _ _ => rfl, fun _ _ => rfl, fun _ => rfl,
   fun _ _ => rfl, fun _ => rfl, fun _ _ => rfl⟩

/-- C9 counterexample: constructing the scraper with `delay_range = (3, 1)`
— a minimum delay strictly greater than the maximum — succeeds and stores
the range as given; nothing rejects the configuration. -/
theorem c9_counterexample :
    WebScraper.init (3, 1) = Except.ok ⟨(3, 1), []⟩ ∧ (3 : Int) > 1 := by
  refine ⟨rfl, ?_⟩
  decide

/-- C9 amended: `__init__` performs no validation of the delay range —
construction succeeds for every range, including ranges with
`minDelay > maxDelay`, and no configuration error is raised before any
fetch. -/
theorem c9_no_validation (dr : Int × Int) :
    WebScraper.init dr = Except.ok { delay_range := dr, scraped_data := [] } :=
  rfl

end WebScraperCore
